import Mathlib

/-!
Verification of the `golock` lock coordinator (package `main` in the
repository's golock tool) together with the parts of `util` it uses
(`util.RunWithTimeout`, `util.ExitCodeProcessKilled`).

The coordinator is a straight-line program that talks to a Redis server.
We embed it shallowly: every Redis call is represented by the response the
server gave (a `Except String α`, `error` being a failed operation), every
`time.Now().UTC().Unix()` call by an explicit clock sample, and the child
command by its abstract outcome.  The function `golockRun` mirrors `run()`
from golock's main.go statement by statement and returns the invocation's
result (an exit code, or a runtime panic), whether the coordinator reached
the command-execution step, and the ordered list of successful store
mutations it performed.
-/

namespace GoLock

/-! ### MD5 (Go `crypto/md5` + `encoding/hex`), over `Nat` words mod 2^32 -/

/-- UTF-8 encoding of one character, as Go's `[]byte(string)` produces. -/
def utf8Bytes (c : Char) : List Nat :=
  let n := c.toNat
  if n < 0x80 then [n]
  else if n < 0x800 then [0xc0 + n / 0x40, 0x80 + n % 0x40]
  else if n < 0x10000 then
    [0xe0 + n / 0x1000, 0x80 + n / 0x40 % 0x40, 0x80 + n % 0x40]
  else
    [0xf0 + n / 0x40000, 0x80 + n / 0x1000 % 0x40, 0x80 + n / 0x40 % 0x40,
      0x80 + n % 0x40]

/-- The UTF-8 bytes of a string (Go's `[]byte(command)`). -/
def strBytes (s : String) : List Nat :=
  (s.data.map utf8Bytes).flatten

/-- The 64 MD5 round constants `K[i] = floor(2^32 * |sin(i+1)|)`. -/
def md5K : Array Nat :=
  #[0xd76aa478, 0xe8c7b756, 0x242070db, 0xc1bdceee,
    0xf57c0faf, 0x4787c62a, 0xa8304613, 0xfd469501,
    0x698098d8, 0x8b44f7af, 0xffff5bb1, 0x895cd7be,
    0x6b901122, 0xfd987193, 0xa679438e, 0x49b40821,
    0xf61e2562, 0xc040b340, 0x265e5a51, 0xe9b6c7aa,
    0xd62f105d, 0x02441453, 0xd8a1e681, 0xe7d3fbc8,
    0x21e1cde6, 0xc33707d6, 0xf4d50d87, 0x455a14ed,
    0xa9e3e905, 0xfcefa3f8, 0x676f02d9, 0x8d2a4c8a,
    0xfffa3942, 0x8771f681, 0x6d9d6122, 0xfde5380c,
    0xa4beea44, 0x4bdecfa9, 0xf6bb4b60, 0xbebfbc70,
    0x289b7ec6, 0xeaa127fa, 0xd4ef3085, 0x04881d05,
    0xd9d4d039, 0xe6db99e5, 0x1fa27cf8, 0xc4ac5665,
    0xf4292244, 0x432aff97, 0xab9423a7, 0xfc93a039,
    0x655b59c3, 0x8f0ccc92, 0xffeff47d, 0x85845dd1,
    0x6fa87e4f, 0xfe2ce6e0, 0xa3014314, 0x4e0811a1,
    0xf7537e82, 0xbd3af235, 0x2ad7d2bb, 0xeb86d391]

/-- The per-round left-rotation amounts. -/
def md5S : Array Nat :=
  #[7, 12, 17, 22, 7, 12, 17, 22, 7, 12, 17, 22, 7, 12, 17, 22,
    5, 9, 14, 20, 5, 9, 14, 20, 5, 9, 14, 20, 5, 9, 14, 20,
    4, 11, 16, 23, 4, 11, 16, 23, 4, 11, 16, 23, 4, 11, 16, 23,
    6, 10, 15, 21, 6, 10, 15, 21, 6, 10, 15, 21, 6, 10, 15, 21]

/-- 32-bit truncation. -/
def m32 (n : Nat) : Nat := n % 4294967296

/-- 32-bit left rotation. -/
def rotl32 (x n : Nat) : Nat :=
  m32 (x <<< n) ||| (x >>> (32 - n))

/-- 32-bit complement. -/
def compl32 (x : Nat) : Nat := 4294967295 ^^^ x

/-- MD5 padding: append `0x80`, zero-pad to 56 mod 64, append the 64-bit
little-endian bit length. -/
def md5Pad (msg : List Nat) : List Nat :=
  let len := msg.length
  let padLen := (55 + 64 - len % 64) % 64
  let bitLen := (len * 8) % 18446744073709551616
  msg ++ [0x80] ++ List.replicate padLen 0 ++
    (List.range 8).map fun i => bitLen >>> (8 * i) % 256

/-- Decode 4 consecutive bytes as a little-endian 32-bit word. -/
def leWord (bytes : List Nat) (i : Nat) : Nat :=
  bytes.getD (4 * i) 0 + bytes.getD (4 * i + 1) 0 * 256 +
    bytes.getD (4 * i + 2) 0 * 65536 + bytes.getD (4 * i + 3) 0 * 16777216

/-- One MD5 round: state `(a, b, c, d)`, message words `m`, round index `i`. -/
def md5Round (m : Nat → Nat) (st : Nat × Nat × Nat × Nat) (i : Nat) :
    Nat × Nat × Nat × Nat :=
  let (a, b, c, d) := st
  let (f, g) :=
    if i < 16 then ((b &&& c) ||| (compl32 b &&& d), i)
    else if i < 32 then ((d &&& b) ||| (compl32 d &&& c), (5 * i + 1) % 16)
    else if i < 48 then (b ^^^ c ^^^ d, (3 * i + 5) % 16)
    else (c ^^^ (b ||| compl32 d), 7 * i % 16)
  let f := m32 (f + a + md5K.getD i 0 + m g)
  (d, m32 (b + rotl32 f (md5S.getD i 0)), b, c)

/-- Process one 64-byte block starting at byte offset `off`. -/
def md5Block (bytes : List Nat) (off : Nat) (st : Nat × Nat × Nat × Nat) :
    Nat × Nat × Nat × Nat :=
  let m : Nat → Nat := fun g => leWord (bytes.drop off) g
  let (a0, b0, c0, d0) := st
  let (a, b, c, d) := (List.range 64).foldl (md5Round m) st
  (m32 (a0 + a), m32 (b0 + b), m32 (c0 + c), m32 (d0 + d))

/-- Digest state after processing all 64-byte blocks of a padded message. -/
def md5Sum (msg : List Nat) : Nat × Nat × Nat × Nat :=
  let padded := md5Pad msg
  (List.range (padded.length / 64)).foldl
    (fun st blk => md5Block padded (64 * blk) st)
    (0x67452301, 0xefcdab89, 0x98badcfe, 0x10325476)

/-- Lowercase hex digit. -/
def hexDigit (n : Nat) : Char :=
  if n < 10 then Char.ofNat (48 + n) else Char.ofNat (87 + n)

/-- Two lowercase hex digits of a byte (Go `encoding/hex`). -/
def byteHex (b : Nat) : List Char :=
  [hexDigit (b / 16 % 16), hexDigit (b % 16)]

/-- A 32-bit word as 4 little-endian bytes in hex. -/
def wordHex (w : Nat) : List Char :=
  byteHex (w % 256) ++ byteHex (w / 256 % 256) ++ byteHex (w / 65536 % 256) ++
    byteHex (w / 16777216 % 256)

/-- `hex.EncodeToString(md5.Sum([]byte(s))[:])`: the lowercase hex MD5 digest
of the UTF-8 bytes of `s`. -/
def md5Hex (s : String) : String :=
  let (a, b, c, d) := md5Sum (strBytes s)
  String.mk (wordHex a ++ wordHex b ++ wordHex c ++ wordHex d)

/-! ### Go `strconv.Atoi` with the error discarded

golock reads Redis values with `expiresIn, _ := strconv.Atoi(expiresAt)`:
on a syntax error `Atoi` returns 0 and an error, and the error is dropped,
so an unparseable value is treated as 0.  (Go additionally clamps on 64-bit
range overflow; the values involved here are Unix timestamps far below that
range, so clamping is not modelled.) -/

/-- Is `c` an ASCII decimal digit? -/
def isDigitCh (c : Char) : Bool :=
  48 ≤ c.toNat && c.toNat ≤ 57

/-- The characters after Go `ParseInt`'s optional single leading sign. -/
def atoiCore (cs : List Char) : List Char :=
  match cs with
  | '+' :: rest => rest
  | '-' :: rest => rest
  | cs => cs

/-- Does `s` parse as an optionally-signed decimal integer (Go `Atoi` syntax)? -/
def atoiValid (s : String) : Bool :=
  let core := atoiCore s.data
  core.length > 0 && core.all isDigitCh

/-- `v, _ := strconv.Atoi(s)`: the parsed value, or 0 when parsing fails. -/
def atoiDiscard (s : String) : Int :=
  if atoiValid s then
    let neg := s.data.head? == some '-'
    let n : Nat := (atoiCore s.data).foldl (fun a c => a * 10 + (c.toNat - 48)) 0
    if neg then -(n : Int) else (n : Int)
  else 0

/-! ### The golock coordinator -/

/-- golock's exit code for "normal non-execution" outcomes. -/
def exitSuccess : Int := 200

/-- golock's exit code for errors. -/
def exitFailure : Int := 201

/-- golock's exit code for a guarded command killed on timeout. -/
def exitTimeout : Int := 202

/-- `util.ExitCodeProcessKilled`: the code `util.RunWithTimeout` returns when
it killed the process for exceeding its timeout. -/
def ExitCodeProcessKilled : Int := 137

/-- The environment-derived configuration `run()` reads (after defaulting). -/
structure Env where
  /-- CRONLOCK_GRACE (seconds, default 40). -/
  lockGrace : Int
  /-- CRONLOCK_RELEASE (seconds, default 86400). -/
  lockRelease : Int
  /-- CRONLOCK_PREFIX (default "cronlock."). -/
  lockPfx : String
  /-- CRONLOCK_KEY ("" when unset). -/
  envKey : String
  /-- CRONLOCK_RESET (default "no"). -/
  reset : String
  /-- CRONLOCK_TIMEOUT (seconds, default 0 = no timeout). -/
  timeout : Int
deriving Repr, DecidableEq

/-- The four `time.Now().UTC().Unix()` samples `run()` takes, in program
order: at the `expireAtMax` computation, at the `expireAtMin` computation,
after the `Get`, and after the takeover `GetSet`. -/
structure Clock where
  tMax : Int
  tMin : Int
  tGet : Int
  tReacq : Int
deriving Repr, DecidableEq

/-- Abstract outcome of the guarded child process inside
`util.RunWithTimeout`: it ran to completion with an exit status, or the
context deadline had expired when `process.Run()` returned (only possible
when a positive timeout configured a deadline), or `process.Run()` failed
with an error that is not an `exec.ExitError` (e.g. the binary was not
found). -/
inductive CmdOutcome where
  | completed (code : Int)
  | timedOut
  | startFailed
deriving Repr, DecidableEq

/-- Shape of the `error` value `util.RunWithTimeout` returns: `nil`, an
error wrapping an `exec.ExitError`, or some other non-nil error. -/
inductive RunErr where
  | noErr
  | exitErr (code : Int)
  | otherErr
deriving Repr, DecidableEq

/-- `util.RunWithTimeout` (util/util.go): on a deadline hit it kills the
process group and returns `(137, errCommandTimedOut)`; on an `ExitError` it
returns the command's own exit code with the wrapped error; on another run
error it returns 1; on success `(0, nil)`. -/
def RunWithTimeout (timeout : Int) (outcome : CmdOutcome) : Int × RunErr :=
  match timeout, outcome with
  | _, .timedOut => (ExitCodeProcessKilled, .otherErr)
  | _, .startFailed => (1, .otherErr)
  | _, .completed code => if code = 0 then (0, .noErr) else (code, .exitErr code)

/-- A successful mutation golock performed on Redis, in program order.
`setNX` is recorded only when the server reported the key absent (the set
happened); failed operations record nothing. -/
inductive WriteEvent where
  | delKey (key : String)
  | setNX (key : String) (value : Int) (ttlSeconds : Int)
  | getSet (key : String) (value : Int)
  | expireAt (key : String) (atTime : Int)
deriving Repr, DecidableEq

/-- How the invocation ended: `run()` returned an exit code, or the process
panicked (a nil-pointer dereference) before `run()` could return. -/
inductive RunResult where
  | exit (code : Int)
  | panicked
deriving Repr, DecidableEq

/-- The responses Redis gave to each call `run()` can make, in program
order.  `Except.error` models the go-redis call returning a non-nil error
(after the client's own internal retries were exhausted). -/
structure StoreResponses where
  /-- `Ping` during `redisConnect` (`.ok` = reply "PONG"). -/
  connResp : Except String Unit
  /-- `Del` in `resetKey` (number of keys removed). -/
  delResp : Except String Int
  /-- `SetNX` (`true` = key was absent and the value was stored). -/
  setnxResp : Except String Bool
  /-- `Get` after a failed `SetNX` (the stored string value). -/
  getResp : Except String String
  /-- Takeover `GetSet` (the value that was overwritten). -/
  getsetResp : Except String String
  /-- Release-phase `GetSet` (result discarded by the code). -/
  relGetsetResp : Except String String
  /-- Release-phase `ExpireAt` (result discarded by the code). -/
  expireAtResp : Except String Bool
deriving Repr

/-- What one invocation did: its result, whether it reached the
command-execution step, and the successful store mutations in order. -/
structure RunOutcome where
  result : RunResult
  ran : Bool
  writes : List WriteEvent
deriving Repr, DecidableEq

/-- `getRedisKey` (golock main.go): prefix + CRONLOCK_KEY if that is set,
otherwise prefix + hex MD5 of the space-joined command line. -/
def getRedisKey (envKeyVal : String) (lockPfx command : String) : String :=
  let redisKey := if envKeyVal = "" then md5Hex command else envKeyVal
  lockPfx ++ redisKey

/-- `resetKey` (golock main.go): when CRONLOCK_RESET is "yes", delete the
key; an error is `exitFailure`, a removed-count of 0 or 1 is `exitSuccess`,
anything else `exitFailure`.  Returns 0 when reset mode is off.  The write
trace of the performed delete is returned alongside. -/
def resetKey (reset : String) (delResp : Except String Int)
    (redisKey : String) : Int × List WriteEvent :=
  if reset = "yes" then
    match delResp with
    | .error _ => (exitFailure, [])
    | .ok removed =>
      if removed = 0 || removed = 1 then (exitSuccess, [.delKey redisKey])
      else (exitFailure, [.delKey redisKey])
  else (0, [])

/-- The tail of `run()` from the `util.RunWithTimeout` call onwards: run the
command, remap exit code 137 to `exitTimeout` when a timeout was set, then
`if !errors.As(err, &exitError) { slog.Error(err.Error()) }` — when the
command succeeded `err` is nil, `errors.As` is false, and `err.Error()`
dereferences a nil interface: the process panics before the release-phase
writes.  Otherwise the two release writes are attempted with their errors
discarded, and the (remapped) exit code is returned. -/
def commandPhase (timeout expireAtMinVal : Int) (redisKey : String)
    (preWrites : List WriteEvent) (relGetsetResp : Except String String)
    (expireAtResp : Except String Bool) (outcome : CmdOutcome) : RunOutcome :=
  let r := RunWithTimeout timeout outcome
  let exitCode := if timeout > 0 ∧ r.1 = ExitCodeProcessKilled then exitTimeout else r.1
  match r.2 with
  | .noErr => ⟨.panicked, true, preWrites⟩
  | _ =>
    let relWrites := match relGetsetResp with
      | .ok _ => [WriteEvent.getSet redisKey expireAtMinVal]
      | .error _ => []
    let expWrites := match expireAtResp with
      | .ok _ => [WriteEvent.expireAt redisKey expireAtMinVal]
      | .error _ => []
    ⟨.exit exitCode, true, preWrites ++ relWrites ++ expWrites⟩

/-- `run()` (golock main.go), statement by statement: connect, compute the
key, honour reset mode, compute `expireAtMax = tMax + lockRelease + 1` and
`expireAtMin = tMin + lockGrace + 1`, attempt `SetNX`, walk the
live / expiring-now / expired edge cases on failure, attempt the takeover
`GetSet` on the expired path, and finally run the command and release. -/
def golockRun (env : Env) (clk : Clock) (args : List String)
    (resp : StoreResponses) (outcome : CmdOutcome) : RunOutcome :=
  match resp.connResp with
  | .error _ => ⟨.exit exitFailure, false, []⟩
  | .ok _ =>
    let command := String.intercalate " " args
    let redisKey := getRedisKey env.envKey env.lockPfx command
    let rk := resetKey env.reset resp.delResp redisKey
    if rk.1 ≠ 0 then ⟨.exit rk.1, false, rk.2⟩
    else
      let expireAtMax := clk.tMax + env.lockRelease + 1
      let expireAtMin := clk.tMin + env.lockGrace + 1
      match resp.setnxResp with
      | .error _ => ⟨.exit exitFailure, false, []⟩
      | .ok acquired =>
        if acquired then
          commandPhase env.timeout expireAtMin redisKey
            [.setNX redisKey expireAtMax env.lockRelease]
            resp.relGetsetResp resp.expireAtResp outcome
        else
          match resp.getResp with
          | .error _ => ⟨.exit exitFailure, false, []⟩
          | .ok expiresAt =>
            let expiresIn := atoiDiscard expiresAt - clk.tGet
            if expiresIn > 0 then ⟨.exit exitSuccess, false, []⟩
            else if expiresIn = 0 then ⟨.exit exitSuccess, false, []⟩
            else
              match resp.getsetResp with
              | .error _ => ⟨.exit exitFailure, false, []⟩
              | .ok reacquire =>
                let expiresIn2 := atoiDiscard reacquire - clk.tReacq
                if expiresIn2 > 0 then
                  ⟨.exit exitSuccess, false, [.getSet redisKey expireAtMax]⟩
                else
                  commandPhase env.timeout expireAtMin redisKey
                    [.getSet redisKey expireAtMax]
                    resp.relGetsetResp resp.expireAtResp outcome

/-- Effect of one recorded write on the store's value map (Redis stores the
integers golock writes as their decimal strings). -/
def applyWrite (store : String → Option String) (w : WriteEvent) :
    String → Option String :=
  fun q =>
    match w with
    | .delKey k => if q = k then none else store q
    | .setNX k v _ => if q = k then some (toString v) else store q
    | .getSet k v => if q = k then some (toString v) else store q
    | .expireAt _ _ => store q

/-- Effect of a whole write trace on the store's value map. -/
def applyWrites (store : String → Option String) (ws : List WriteEvent) :
    String → Option String :=
  ws.foldl applyWrite store

/-! ### Helper lemmas -/

/-- With reset mode off, `resetKey` does nothing and returns 0. -/
theorem resetKey_off (reset : String) (d : Except String Int) (k : String)
    (h : reset ≠ "yes") : resetKey reset d k = (0, []) := by
  simp [resetKey, h]

/-- `commandPhase` always reaches the command-execution step. -/
theorem commandPhase_ran (t e : Int) (k : String) (pre : List WriteEvent)
    (rg : Except String String) (ea : Except String Bool) (o : CmdOutcome) :
    (commandPhase t e k pre rg ea o).ran = true := by
  rcases o with code | _ | _
  · by_cases h : code = 0 <;> simp [commandPhase, RunWithTimeout, h]
  · simp [commandPhase, RunWithTimeout]
  · simp [commandPhase, RunWithTimeout]

/-- The write trace of `commandPhase` starts with the writes performed
before the command ran. -/
theorem commandPhase_writes_head (t e : Int) (k : String) (w : WriteEvent)
    (pre : List WriteEvent) (rg : Except String String)
    (ea : Except String Bool) (o : CmdOutcome) :
    (commandPhase t e k (w :: pre) rg ea o).writes.head? = some w := by
  rcases o with code | _ | _
  · by_cases h : code = 0 <;> simp [commandPhase, RunWithTimeout, h]
  · simp [commandPhase, RunWithTimeout]
  · simp [commandPhase, RunWithTimeout]

/-! ### Claims -/

/-- C1.  For every acquisition attempt against a key whose stored Lock
Record value, read after a failed set-if-absent, gives
`expiresIn = storedValue - now` that is strictly positive or exactly zero,
the coordinator does not execute the guarded command and the invocation
exits with code 200. -/
theorem claim1_live_lock_no_run (env : Env) (clk : Clock)
    (args : List String) (delResp : Except String Int) (s : String)
    (gsR rgR : Except String String) (eaR : Except String Bool)
    (outcome : CmdOutcome)
    (hreset : env.reset ≠ "yes")
    (hlive : 0 ≤ atoiDiscard s - clk.tGet) :
    golockRun env clk args ⟨.ok (), delResp, .ok false, .ok s, gsR, rgR, eaR⟩
      outcome = ⟨.exit exitSuccess, false, []⟩ := by
  by_cases hpos : atoiDiscard s - clk.tGet > 0
  · simp [golockRun, resetKey_off env.reset delResp _ hreset, hpos]
  · have hz : atoiDiscard s - clk.tGet = 0 := by omega
    simp [golockRun, resetKey_off env.reset delResp _ hreset, hpos, hz]

/-- Witness for C1 at a concrete live lock (stored 2000, now 1001). -/
theorem claim1_witness :
    golockRun ⟨40, 86400, "cronlock.", "job1", "no", 0⟩ ⟨1000, 1000, 1001, 1001⟩
      ["echo", "hello"]
      ⟨.ok (), .ok 0, .ok false, .ok "2000", .ok "", .ok "", .ok true⟩
      (.completed 0) = ⟨.exit exitSuccess, false, []⟩ :=
  claim1_live_lock_no_run _ _ _ _ _ _ _ _ _ (by decide) (by decide)

/-- C2.  For every acquisition attempt that finds the stored expiry strictly
in the past, the coordinator performs a get-and-set writing its new
`expireAtMax` and gets back the value it overwrote; if that value minus now
is strictly positive it exits 200 without running the guarded command, and
otherwise it reaches the command-execution step (so a single uncontended
attempt against a past-timestamp record takes over the lock and runs the
command). -/
theorem claim2_stale_takeover (env : Env) (clk : Clock)
    (args : List String) (delResp : Except String Int) (s s2 : String)
    (rgR : Except String String) (eaR : Except String Bool)
    (outcome : CmdOutcome)
    (hreset : env.reset ≠ "yes")
    (hstale : atoiDiscard s - clk.tGet < 0) :
    (atoiDiscard s2 - clk.tReacq > 0 →
      golockRun env clk args
          ⟨.ok (), delResp, .ok false, .ok s, .ok s2, rgR, eaR⟩ outcome =
        ⟨.exit exitSuccess, false,
          [.getSet (getRedisKey env.envKey env.lockPfx
              (String.intercalate " " args))
            (clk.tMax + env.lockRelease + 1)]⟩) ∧
    (atoiDiscard s2 - clk.tReacq ≤ 0 →
      (golockRun env clk args
          ⟨.ok (), delResp, .ok false, .ok s, .ok s2, rgR, eaR⟩ outcome).ran
          = true ∧
      (golockRun env clk args
          ⟨.ok (), delResp, .ok false, .ok s, .ok s2, rgR, eaR⟩
          outcome).writes.head? =
        some (.getSet (getRedisKey env.envKey env.lockPfx
            (String.intercalate " " args))
          (clk.tMax + env.lockRelease + 1))) := by
  have h1 : ¬ atoiDiscard s - clk.tGet > 0 := by omega
  have h2 : ¬ atoiDiscard s - clk.tGet = 0 := by omega
  constructor
  · intro hrace
    simp [golockRun, resetKey_off env.reset delResp _ hreset, h1, h2, hrace]
  · intro hwon
    have h3 : ¬ atoiDiscard s2 - clk.tReacq > 0 := by omega
    simp only [golockRun, resetKey_off env.reset delResp _ hreset, h1, h2, h3,
      if_false, if_neg, ite_false]
    constructor
    · simp [h1, h2, h3, commandPhase_ran]
    · simp [h1, h2, h3, commandPhase_writes_head]

/-- Witness for C2: an uncontended takeover of a record holding 900 read at
time 1001 (the get-and-set returns the same stale 900), which reaches the
command-execution step with the takeover write first in the trace. -/
theorem claim2_witness :
    (golockRun ⟨40, 100, "cronlock.", "job1", "no", 0⟩ ⟨1000, 1000, 1001, 1001⟩
        ["echo", "hello"]
        ⟨.ok (), .ok 0, .ok false, .ok "900", .ok "900", .ok "", .ok true⟩
        (.completed 3)).ran = true ∧
    (golockRun ⟨40, 100, "cronlock.", "job1", "no", 0⟩ ⟨1000, 1000, 1001, 1001⟩
        ["echo", "hello"]
        ⟨.ok (), .ok 0, .ok false, .ok "900", .ok "900", .ok "", .ok true⟩
        (.completed 3)).writes.head? =
      some (.getSet "cronlock.job1" 1101) :=
  (claim2_stale_takeover ⟨40, 100, "cronlock.", "job1", "no", 0⟩
      ⟨1000, 1000, 1001, 1001⟩ ["echo", "hello"] (.ok 0) "900" "900"
      (.ok "") (.ok true) (.completed 3) (by decide) (by decide)).2 (by decide)

/-- The result of `commandPhase` does not depend on the release-phase
responses (their errors are discarded by the code). -/
theorem commandPhase_result_indep (t e : Int) (k : String)
    (pre : List WriteEvent) (rg rg2 : Except String String)
    (ea ea2 : Except String Bool) (o : CmdOutcome) :
    (commandPhase t e k pre rg ea o).result =
      (commandPhase t e k pre rg2 ea2 o).result := by
  rcases o with code | _ | _
  · by_cases h : code = 0 <;> simp [commandPhase, RunWithTimeout, h]
  · simp [commandPhase, RunWithTimeout]
  · simp [commandPhase, RunWithTimeout]

/-- The invocation's result never depends on the responses to the two
release-phase calls. -/
theorem golockRun_result_indep (env : Env) (clk : Clock) (args : List String)
    (dR : Except String Int) (sR : Except String Bool)
    (gR gsR rgR rgR2 : Except String String) (eaR eaR2 : Except String Bool)
    (outcome : CmdOutcome) :
    (golockRun env clk args ⟨.ok (), dR, sR, gR, gsR, rgR, eaR⟩ outcome).result =
      (golockRun env clk args ⟨.ok (), dR, sR, gR, gsR, rgR2, eaR2⟩
        outcome).result := by
  simp only [golockRun]
  by_cases hk : (resetKey env.reset dR (getRedisKey env.envKey env.lockPfx
      (String.intercalate " " args))).1 = 0
  · simp only [hk, ne_eq, not_true_eq_false, if_false, ite_false]
    rcases sR with m | acquired
    · rfl
    · cases acquired
      · rcases gR with m | s
        · rfl
        · by_cases h1 : atoiDiscard s - clk.tGet > 0
          · simp [h1]
          · by_cases h2 : atoiDiscard s - clk.tGet = 0
            · simp [h1, h2]
            · rcases gsR with m | s2
              · simp [h1, h2]
              · by_cases h3 : atoiDiscard s2 - clk.tReacq > 0
                · simp [h1, h2, h3]
                · simp only [h1, h2, h3, if_false, ite_false]
                  exact commandPhase_result_indep _ _ _ _ _ _ _ _ _
      · exact commandPhase_result_indep _ _ _ _ _ _ _ _ _
  · simp [hk]

/-- C3 counterexample.  A guarded command that exits 0 makes
`util.RunWithTimeout` return a nil error; `run()` then evaluates
`err.Error()` on that nil error and panics, so the invocation ends without
performing either release-phase write: the trace holds only the acquisition
`SetNX`.  This falsifies "always performs two final writes regardless of
outcome". -/
theorem claim3_counterexample :
    golockRun ⟨40, 100, "cronlock.", "job1", "no", 0⟩ ⟨100, 100, 101, 101⟩
      ["echo", "hello"]
      ⟨.ok (), .ok 0, .ok true, .ok "", .ok "", .ok "ok", .ok true⟩
      (.completed 0) =
      ⟨.panicked, true, [.setNX "cronlock.job1" 201 100]⟩ := by decide

/-- C3 amended.  When the guarded command finishes with an outcome that
`util.RunWithTimeout` reports with a non-nil error (a non-zero exit, a
timeout kill, or a start failure) and the two release-phase calls succeed,
the coordinator overwrites the Lock Record's value with
`expireAtMin = tMin + grace + 1` — a value computed from the clock sample
taken before acquisition, not from the command's completion time — and sets
the store's expiration for the key to fire at that same instant; when the
command exits 0 the coordinator panics on a nil-error dereference before
either release write happens. -/
theorem claim3_release_writes_amended (env : Env) (clk : Clock)
    (args : List String) (delResp : Except String Int)
    (gR gsR : Except String String) (rv : String) (eb : Bool)
    (outcome : CmdOutcome) (hreset : env.reset ≠ "yes") :
    (outcome ≠ .completed 0 →
      (golockRun env clk args
          ⟨.ok (), delResp, .ok true, gR, gsR, .ok rv, .ok eb⟩
          outcome).writes =
        [.setNX (getRedisKey env.envKey env.lockPfx
            (String.intercalate " " args))
          (clk.tMax + env.lockRelease + 1) env.lockRelease,
         .getSet (getRedisKey env.envKey env.lockPfx
            (String.intercalate " " args))
          (clk.tMin + env.lockGrace + 1),
         .expireAt (getRedisKey env.envKey env.lockPfx
            (String.intercalate " " args))
          (clk.tMin + env.lockGrace + 1)]) ∧
    (outcome = .completed 0 →
      golockRun env clk args
          ⟨.ok (), delResp, .ok true, gR, gsR, .ok rv, .ok eb⟩ outcome =
        ⟨.panicked, true,
          [.setNX (getRedisKey env.envKey env.lockPfx
              (String.intercalate " " args))
            (clk.tMax + env.lockRelease + 1) env.lockRelease]⟩) := by
  constructor
  · intro hne
    rcases outcome with code | _ | _
    · have hc : ¬ code = 0 := by rintro rfl; exact hne rfl
      simp [golockRun, resetKey_off env.reset delResp _ hreset, commandPhase,
        RunWithTimeout, hc]
    · simp [golockRun, resetKey_off env.reset delResp _ hreset, commandPhase,
        RunWithTimeout]
    · simp [golockRun, resetKey_off env.reset delResp _ hreset, commandPhase,
        RunWithTimeout]
  · rintro rfl
    simp [golockRun, resetKey_off env.reset delResp _ hreset, commandPhase,
      RunWithTimeout]

/-- Witness for C3 (amended): a command exiting 7 yields the acquisition
write followed by the two release writes at `tMin + grace + 1 = 141`. -/
theorem claim3_witness :
    (golockRun ⟨40, 100, "cronlock.", "job1", "no", 0⟩ ⟨100, 100, 101, 101⟩
        ["echo", "hello"]
        ⟨.ok (), .ok 0, .ok true, .ok "", .ok "", .ok "ok", .ok true⟩
        (.completed 7)).writes =
      [.setNX "cronlock.job1" 201 100, .getSet "cronlock.job1" 141,
       .expireAt "cronlock.job1" 141] :=
  ((claim3_release_writes_amended ⟨40, 100, "cronlock.", "job1", "no", 0⟩
      ⟨100, 100, 101, 101⟩ ["echo", "hello"] (.ok 0) (.ok "") (.ok "") "ok"
      true (.completed 7) (by decide)).1 (by decide)).trans (by decide)

/-- C4 counterexample.  With a non-zero timeout configured, a guarded
command that finishes on its own with exit code 137 (the code
`util.RunWithTimeout` reserves for a timeout kill) is reported as a
timeout: the invocation exits 202 instead of propagating 137. -/
theorem claim4_counterexample :
    (golockRun ⟨40, 100, "cronlock.", "job1", "no", 5⟩ ⟨100, 100, 101, 101⟩
        ["sleep", "10"]
        ⟨.ok (), .ok 0, .ok true, .ok "", .ok "", .ok "ok", .ok true⟩
        (.completed 137)).result = .exit exitTimeout ∧
    exitTimeout ≠ (137 : Int) := by decide

/-- C4 amended.  With a non-zero timeout, a timed-out command yields exit
202.  A command that exits with a non-zero code `c` has `c` propagated
unchanged — except that `c = 137` under a non-zero timeout is
indistinguishable from a timeout kill and is also reported as 202.  A
command that exits 0 makes the coordinator panic on a nil-error
dereference instead of returning 0, and a command that could not be run at
all is reported with exit code 1. -/
theorem claim4_timeout_codes_amended (env : Env) (clk : Clock)
    (args : List String) (delResp : Except String Int)
    (gR gsR rgR : Except String String) (eaR : Except String Bool)
    (hreset : env.reset ≠ "yes") :
    (env.timeout > 0 →
      (golockRun env clk args ⟨.ok (), delResp, .ok true, gR, gsR, rgR, eaR⟩
        .timedOut).result = .exit exitTimeout) ∧
    (∀ c : Int, c ≠ 0 →
      (golockRun env clk args ⟨.ok (), delResp, .ok true, gR, gsR, rgR, eaR⟩
          (.completed c)).result =
        .exit (if env.timeout > 0 ∧ c = ExitCodeProcessKilled then exitTimeout
          else c)) ∧
    ((golockRun env clk args ⟨.ok (), delResp, .ok true, gR, gsR, rgR, eaR⟩
      (.completed 0)).result = .panicked) ∧
    ((golockRun env clk args ⟨.ok (), delResp, .ok true, gR, gsR, rgR, eaR⟩
      .startFailed).result = .exit 1) := by
  refine ⟨fun ht => ?_, fun c hc => ?_, ?_, ?_⟩
  · simp [golockRun, resetKey_off env.reset delResp _ hreset, commandPhase,
      RunWithTimeout, ht]
  · simp [golockRun, resetKey_off env.reset delResp _ hreset, commandPhase,
      RunWithTimeout, hc]
  · simp [golockRun, resetKey_off env.reset delResp _ hreset, commandPhase,
      RunWithTimeout]
  · simp [golockRun, resetKey_off env.reset delResp _ hreset, commandPhase,
      RunWithTimeout, ExitCodeProcessKilled, exitTimeout]

/-- Witness for C4 (amended): a timed-out command under timeout 5 exits
202. -/
theorem claim4_witness :
    (golockRun ⟨40, 100, "cronlock.", "job1", "no", 5⟩ ⟨100, 100, 101, 101⟩
        ["sleep", "10"]
        ⟨.ok (), .ok 0, .ok true, .ok "", .ok "", .ok "ok", .ok true⟩
        .timedOut).result = .exit exitTimeout :=
  (claim4_timeout_codes_amended ⟨40, 100, "cronlock.", "job1", "no", 5⟩
      ⟨100, 100, 101, 101⟩ ["sleep", "10"] (.ok 0) (.ok "") (.ok "")
      (.ok "ok") (.ok true) (by decide)).1 (by decide)

/-- C5 counterexample.  At acquisition with `tMax = 1000` and
`releaseTimeout = 100`, the value handed to the set-if-absent is
`1101 = now + releaseTimeout + 1`, not `now + releaseTimeout = 1100` as the
claim states. -/
theorem claim5_counterexample :
    (golockRun ⟨40, 100, "cronlock.", "job1", "no", 0⟩ ⟨1000, 1000, 1001, 1001⟩
        ["echo", "hello"]
        ⟨.ok (), .ok 0, .ok true, .ok "", .ok "", .ok "ok", .ok true⟩
        (.completed 0)).writes =
      [.setNX "cronlock.job1" 1101 100] ∧ (1101 : Int) ≠ 1000 + 100 := by
  decide

/-- C5 amended.  At acquisition the coordinator computes
`expireAtMax = now + releaseTimeout + 1` (and, from a second clock sample,
`expireAtMin = now + grace + 1`), and attempts an atomic set-if-absent on
the Lock Key storing `expireAtMax` with a store-native expiration of
`releaseTimeout` seconds: whenever the set-if-absent succeeds, the first
recorded write is exactly that set. -/
theorem claim5_acquire_computation_amended (env : Env) (clk : Clock)
    (args : List String) (delResp : Except String Int)
    (gR gsR rgR : Except String String) (eaR : Except String Bool)
    (outcome : CmdOutcome) (hreset : env.reset ≠ "yes") :
    (golockRun env clk args ⟨.ok (), delResp, .ok true, gR, gsR, rgR, eaR⟩
        outcome).writes.head? =
      some (.setNX (getRedisKey env.envKey env.lockPfx
          (String.intercalate " " args))
        (clk.tMax + env.lockRelease + 1) env.lockRelease) := by
  simp only [golockRun, resetKey_off env.reset delResp _ hreset]
  simp [commandPhase_writes_head]

/-- Witness for C5 (amended) at `tMax = 1000`, `releaseTimeout = 100`. -/
theorem claim5_witness :
    (golockRun ⟨40, 100, "cronlock.", "job1", "no", 0⟩ ⟨1000, 1000, 1001, 1001⟩
        ["echo", "hello"]
        ⟨.ok (), .ok 0, .ok true, .ok "", .ok "", .ok "ok", .ok true⟩
        (.completed 7)).writes.head? =
      some (.setNX "cronlock.job1" 1101 100) :=
  (claim5_acquire_computation_amended ⟨40, 100, "cronlock.", "job1", "no", 0⟩
      ⟨1000, 1000, 1001, 1001⟩ ["echo", "hello"] (.ok 0) (.ok "") (.ok "")
      (.ok "ok") (.ok true) (.completed 7) (by decide)).trans (by decide)

/-- C6 counterexample.  A store error on the release-phase get-and-set is
discarded: the invocation exits with the guarded command's code 7, not with
201, falsifying "this holds for every such operation, including the two
release-phase writes". -/
theorem claim6_counterexample :
    (golockRun ⟨40, 100, "cronlock.", "job1", "no", 0⟩ ⟨1000, 1000, 1001, 1001⟩
        ["echo", "hello"]
        ⟨.ok (), .ok 0, .ok true, .ok "", .ok "", .error "connection lost",
          .ok true⟩
        (.completed 7)).result = .exit 7 ∧ (7 : Int) ≠ exitFailure := by
  decide

/-- C6 amended.  An error from the connection ping, the reset-mode delete,
the set-if-absent, the edge-case get, or the takeover get-and-set is fatal:
the invocation exits 201 at once, with no coordinator-level retry and
without reaching the guarded command.  The two release-phase writes are the
exception: their errors are discarded, and the invocation's result is
entirely independent of their responses. -/
theorem claim6_store_errors_amended (env : Env) (clk : Clock)
    (args : List String) (msg : String) (dR : Except String Int)
    (sR : Except String Bool) (gR gsR rgR : Except String String)
    (eaR : Except String Bool) (outcome : CmdOutcome) :
    (golockRun env clk args ⟨.error msg, dR, sR, gR, gsR, rgR, eaR⟩ outcome =
      ⟨.exit exitFailure, false, []⟩) ∧
    (env.reset = "yes" →
      golockRun env clk args ⟨.ok (), .error msg, sR, gR, gsR, rgR, eaR⟩
        outcome = ⟨.exit exitFailure, false, []⟩) ∧
    (env.reset ≠ "yes" →
      golockRun env clk args ⟨.ok (), dR, .error msg, gR, gsR, rgR, eaR⟩
        outcome = ⟨.exit exitFailure, false, []⟩) ∧
    (env.reset ≠ "yes" →
      golockRun env clk args ⟨.ok (), dR, .ok false, .error msg, gsR, rgR, eaR⟩
        outcome = ⟨.exit exitFailure, false, []⟩) ∧
    (env.reset ≠ "yes" → ∀ s : String, atoiDiscard s - clk.tGet < 0 →
      golockRun env clk args
          ⟨.ok (), dR, .ok false, .ok s, .error msg, rgR, eaR⟩ outcome =
        ⟨.exit exitFailure, false, []⟩) ∧
    (∀ rgR2 : Except String String, ∀ eaR2 : Except String Bool,
      (golockRun env clk args ⟨.ok (), dR, sR, gR, gsR, rgR, eaR⟩
          outcome).result =
        (golockRun env clk args ⟨.ok (), dR, sR, gR, gsR, rgR2, eaR2⟩
          outcome).result) := by
  refine ⟨rfl, fun hr => ?_, fun hr => ?_, fun hr => ?_, fun hr s hs => ?_,
    fun rgR2 eaR2 => golockRun_result_indep env clk args dR sR gR gsR rgR
      rgR2 eaR eaR2 outcome⟩
  · simp [golockRun, resetKey, hr, exitFailure]
  · simp [golockRun, resetKey_off env.reset dR _ hr]
  · simp [golockRun, resetKey_off env.reset dR _ hr]
  · have h1 : ¬ atoiDiscard s - clk.tGet > 0 := by omega
    have h2 : ¬ atoiDiscard s - clk.tGet = 0 := by omega
    simp [golockRun, resetKey_off env.reset dR _ hr, h1, h2]

/-- Witness for C6 (amended): a failed set-if-absent call exits 201. -/
theorem claim6_witness :
    golockRun ⟨40, 100, "cronlock.", "job1", "no", 0⟩ ⟨1000, 1000, 1001, 1001⟩
      ["echo", "hello"]
      ⟨.ok (), .ok 0, .error "i/o timeout", .ok "", .ok "", .ok "ok", .ok true⟩
      (.completed 0) = ⟨.exit exitFailure, false, []⟩ :=
  (claim6_store_errors_amended ⟨40, 100, "cronlock.", "job1", "no", 0⟩
      ⟨1000, 1000, 1001, 1001⟩ ["echo", "hello"] "i/o timeout" (.ok 0)
      (.ok true) (.ok "") (.ok "") (.ok "ok") (.ok true)
      (.completed 0)).2.2.1 (by decide)

/-- C7.  `getRedisKey` returns prefix + explicit key when CRONLOCK_KEY is
configured, and otherwise prefix + the hexadecimal MD5 digest of the
space-joined command line; consequently two invocations with identical
command-line argument sequences (and no explicit key override) return
identical keys. -/
theorem claim7_compute_key (pfxVal cmd envKeyVal : String) :
    (envKeyVal ≠ "" → getRedisKey envKeyVal pfxVal cmd = pfxVal ++ envKeyVal) ∧
    (envKeyVal = "" → getRedisKey envKeyVal pfxVal cmd = pfxVal ++ md5Hex cmd) ∧
    (∀ args1 args2 : List String, args1 = args2 →
      getRedisKey envKeyVal pfxVal (String.intercalate " " args1) =
        getRedisKey envKeyVal pfxVal (String.intercalate " " args2)) := by
  refine ⟨fun h => ?_, fun h => ?_, fun a1 a2 h => by rw [h]⟩ <;>
    simp [getRedisKey, h]

set_option maxRecDepth 20000 in
/-- Witness for C7: an explicit key is used verbatim, and without one the
key is the prefix plus the MD5 digest of "echo hello". -/
theorem claim7_witness :
    getRedisKey "job1" "cronlock." "echo hello" = "cronlock.job1" ∧
    getRedisKey "" "cronlock." "echo hello" =
      "cronlock.cd18203adcdc4404664fea34541d8717" :=
  ⟨((claim7_compute_key "cronlock." "echo hello" "job1").1
      (by decide)).trans (by decide),
   ((claim7_compute_key "cronlock." "echo hello" "").2.1 rfl).trans
     (by decide)⟩

/-- C8.  When reset mode is enabled, the coordinator deletes the Lock
Record for the computed key and terminates immediately with exit code 200,
identically whether a record existed (`Del` removed 1) or not (`Del`
removed 0), and never runs the guarded command on this path (whatever the
delete returned). -/
theorem claim8_reset_idempotent (env : Env) (clk : Clock)
    (args : List String) (sR : Except String Bool)
    (gR gsR rgR : Except String String) (eaR : Except String Bool)
    (outcome : CmdOutcome) (hreset : env.reset = "yes") :
    (∀ removed : Int, removed = 0 ∨ removed = 1 →
      golockRun env clk args ⟨.ok (), .ok removed, sR, gR, gsR, rgR, eaR⟩
          outcome =
        ⟨.exit exitSuccess, false,
          [.delKey (getRedisKey env.envKey env.lockPfx
            (String.intercalate " " args))]⟩) ∧
    (∀ dR : Except String Int,
      (golockRun env clk args ⟨.ok (), dR, sR, gR, gsR, rgR, eaR⟩
        outcome).ran = false) ∧
    (∀ store : String → Option String,
      applyWrites store
          [.delKey (getRedisKey env.envKey env.lockPfx
            (String.intercalate " " args))]
          (getRedisKey env.envKey env.lockPfx
            (String.intercalate " " args)) = none) := by
  refine ⟨fun removed h01 => ?_, fun dR => ?_, fun store => ?_⟩
  · rcases h01 with h | h <;> subst h <;>
      simp [golockRun, resetKey, hreset, exitSuccess]
  · rcases dR with m | removed
    · simp [golockRun, resetKey, hreset, exitFailure]
    · by_cases h01 : removed = 0 ∨ removed = 1
      · rcases h01 with h | h <;> subst h <;>
          simp [golockRun, resetKey, hreset, exitSuccess]
      · have h0 : ¬ removed = 0 := fun h => h01 (Or.inl h)
        have h1 : ¬ removed = 1 := fun h => h01 (Or.inr h)
        simp [golockRun, resetKey, hreset, h0, h1, exitFailure]
  · simp [applyWrites, applyWrite]

/-- Witness for C8: deleting an absent record (removed 0) and an existing
one (removed 1) end identically with exit 200 and no command run. -/
theorem claim8_witness :
    golockRun ⟨40, 100, "cronlock.", "job1", "yes", 0⟩ ⟨0, 0, 0, 0⟩ ["echo"]
      ⟨.ok (), .ok 0, .ok true, .ok "", .ok "", .ok "ok", .ok true⟩
      (.completed 0) =
      ⟨.exit exitSuccess, false, [.delKey "cronlock.job1"]⟩ ∧
    golockRun ⟨40, 100, "cronlock.", "job1", "yes", 0⟩ ⟨0, 0, 0, 0⟩ ["echo"]
      ⟨.ok (), .ok 1, .ok true, .ok "", .ok "", .ok "ok", .ok true⟩
      (.completed 0) =
      ⟨.exit exitSuccess, false, [.delKey "cronlock.job1"]⟩ :=
  ⟨((claim8_reset_idempotent ⟨40, 100, "cronlock.", "job1", "yes", 0⟩
        ⟨0, 0, 0, 0⟩ ["echo"] (.ok true) (.ok "") (.ok "") (.ok "ok")
        (.ok true) (.completed 0) (by decide)).1 0
      (Or.inl rfl)).trans (by decide),
   ((claim8_reset_idempotent ⟨40, 100, "cronlock.", "job1", "yes", 0⟩
        ⟨0, 0, 0, 0⟩ ["echo"] (.ok true) (.ok "") (.ok "") (.ok "ok")
        (.ok true) (.completed 0) (by decide)).1 1
      (Or.inr rfl)).trans (by decide)⟩

/-- C9.  An acquisition attempt that loses the takeover race does not leave
the store unchanged: before exiting 200 it has already replaced the Lock
Record's value with its own `expireAtMax` via the unconditional
get-and-set, so the key afterwards holds the loser's `expireAtMax`, not the
concurrent winner's value. -/
theorem claim9_race_loss_overwrites (env : Env) (clk : Clock)
    (args : List String) (delResp : Except String Int) (s s2 : String)
    (rgR : Except String String) (eaR : Except String Bool)
    (outcome : CmdOutcome) (store : String → Option String)
    (hreset : env.reset ≠ "yes")
    (hstale : atoiDiscard s - clk.tGet < 0)
    (hrace : atoiDiscard s2 - clk.tReacq > 0) :
    golockRun env clk args ⟨.ok (), delResp, .ok false, .ok s, .ok s2, rgR, eaR⟩
        outcome =
      ⟨.exit exitSuccess, false,
        [.getSet (getRedisKey env.envKey env.lockPfx
            (String.intercalate " " args))
          (clk.tMax + env.lockRelease + 1)]⟩ ∧
    applyWrites store
        [.getSet (getRedisKey env.envKey env.lockPfx
            (String.intercalate " " args))
          (clk.tMax + env.lockRelease + 1)]
        (getRedisKey env.envKey env.lockPfx (String.intercalate " " args)) =
      some (toString (clk.tMax + env.lockRelease + 1)) := by
  have h1 : ¬ atoiDiscard s - clk.tGet > 0 := by omega
  have h2 : ¬ atoiDiscard s - clk.tGet = 0 := by omega
  constructor
  · simp [golockRun, resetKey_off env.reset delResp _ hreset, h1, h2, hrace]
  · simp [applyWrites, applyWrite]

/-- Witness for C9: the winner's freshly-written 2000 is overwritten by the
loser's 1101 even though the loser exits 200 without running anything. -/
theorem claim9_witness :
    golockRun ⟨40, 100, "cronlock.", "job1", "no", 0⟩ ⟨1000, 1000, 1001, 1001⟩
      ["echo", "hello"]
      ⟨.ok (), .ok 0, .ok false, .ok "900", .ok "2000", .ok "ok", .ok true⟩
      (.completed 0) =
      ⟨.exit exitSuccess, false, [.getSet "cronlock.job1" 1101]⟩ ∧
    applyWrites (fun q => if q = "cronlock.job1" then some "2000" else none)
      [.getSet "cronlock.job1" 1101] "cronlock.job1" = some "1101" :=
  have h := claim9_race_loss_overwrites ⟨40, 100, "cronlock.", "job1", "no", 0⟩
    ⟨1000, 1000, 1001, 1001⟩ ["echo", "hello"] (.ok 0) "900" "2000" (.ok "ok")
    (.ok true) (.completed 0)
    (fun q => if q = "cronlock.job1" then some "2000" else none)
    (by decide) (by decide) (by decide)
  ⟨h.1.trans (by decide), (by decide : applyWrites _ _ _ = some "1101")⟩

/-- C10.  A stored Lock Record value that does not parse as a decimal
integer has its parse error discarded and is treated as 0, so
`expiresIn = 0 - now` is negative for any positive current time and the
acquisition attempt proceeds down the stale-lock takeover path (its first
write is the takeover get-and-set) instead of failing. -/
theorem claim10_unparseable_value (env : Env) (clk : Clock)
    (args : List String) (delResp : Except String Int) (s s2 : String)
    (rgR : Except String String) (eaR : Except String Bool)
    (outcome : CmdOutcome)
    (hreset : env.reset ≠ "yes")
    (hbad : atoiValid s = false)
    (hnow : clk.tGet > 0) :
    atoiDiscard s = 0 ∧
    (golockRun env clk args ⟨.ok (), delResp, .ok false, .ok s, .ok s2, rgR, eaR⟩
        outcome).writes.head? =
      some (.getSet (getRedisKey env.envKey env.lockPfx
          (String.intercalate " " args))
        (clk.tMax + env.lockRelease + 1)) := by
  have hz : atoiDiscard s = 0 := by simp [atoiDiscard, hbad]
  refine ⟨hz, ?_⟩
  have h1 : ¬ atoiDiscard s - clk.tGet > 0 := by omega
  have h2 : ¬ atoiDiscard s - clk.tGet = 0 := by omega
  by_cases h3 : atoiDiscard s2 - clk.tReacq > 0
  · simp [golockRun, resetKey_off env.reset delResp _ hreset, h1, h2, h3]
  · simp only [golockRun, resetKey_off env.reset delResp _ hreset, h1, h2, h3,
      if_false, ite_false]
    simp [h1, h2, h3, commandPhase_writes_head]

/-- Witness for C10: the unparseable value "purged" is treated as 0 at time
1001 and the attempt performs the takeover get-and-set. -/
theorem claim10_witness :
    atoiDiscard "purged" = 0 ∧
    (golockRun ⟨40, 100, "cronlock.", "job1", "no", 0⟩ ⟨1000, 1000, 1001, 1001⟩
        ["echo", "hello"]
        ⟨.ok (), .ok 0, .ok false, .ok "purged", .ok "900", .ok "ok", .ok true⟩
        (.completed 0)).writes.head? = some (.getSet "cronlock.job1" 1101) :=
  have h := claim10_unparseable_value ⟨40, 100, "cronlock.", "job1", "no", 0⟩
    ⟨1000, 1000, 1001, 1001⟩ ["echo", "hello"] (.ok 0) "purged" "900"
    (.ok "ok") (.ok true) (.completed 0) (by decide) (by decide) (by decide)
  ⟨h.1, h.2.trans (by decide)⟩

end GoLock
